import Mathlib

/-!
Shallow embedding of the `davisweather` Go package (tannerryan/davisweather):
the `parser` package (wire-format records), the `Report` state store
(`report.go`), the `Client` facade, and the UDP lease watchdog (`engine.go`).

Modelling conventions, used throughout and noted at each definition:
* Go `float64` measurement values are only stored, copied, serialized and
  compared for equality by the modelled code (never computed with), so an
  integer carrier type (`F64`) stands in for them.
* `time.Time` / `parser.Time` values are carried as integers (epoch seconds
  for parsed timestamps); `parser.Time.Time()` is the identity conversion.
* `json.Marshal` of a `Report` serializes exactly the exported fields; the
  model represents that canonical serialized form by the tuple of those
  fields (`ReportData`), an injective encoding.  The MD5/hex checksum of the
  serialized bytes is modelled as the serialized form itself: MD5 is
  deterministic, and the code's content-based dedup relies on it being
  collision-free, which the identity encoding satisfies exactly.
* Go panics (nil-pointer dereference, failed type assertion) are modelled by
  an `Option` result: `none` means the call panics instead of returning.
* The capacity-1 notification channel `notify chan bool` is modelled by a
  `List Bool` of length at most 1; `select { case ch <- true; default: }` is
  a conditional append.
* The mutex only serializes the merge operations; merges are modelled as
  whole atomic state transitions, so the mutex itself has no model state.
-/

namespace Davisweather

namespace Parser

/-- Carrier for Go `float64` measurement payloads.  The modelled code only
stores, copies, serializes and equality-compares these values. -/
abbrev F64 := Int

/-- parser.Time (src/parser/time.go): an epoch-seconds timestamp.  The
`Time()` accessor is the identity under this model. -/
abbrev EpochTime := Int

/-- parser.RecordType (src/parser/constants.go). -/
abbrev RecordType := Int

/-- RecordISS is weather conditions from integrated sensor suite. -/
def RecordISS : RecordType := 1

/-- RecordLSSBarometer is weather conditions from LSS barometer. -/
def RecordLSSBarometer : RecordType := 3

/-- RecordLSSTempRh is weather condition from LSS temperature + humidity. -/
def RecordLSSTempRh : RecordType := 4

/-- parser.SignalState (src/parser/constants.go). -/
abbrev SignalState := Int

/-- SignalSynced means WLL unit is locked onto ISS signal. -/
def SignalSynced : SignalState := 0

/-- SignalRescan means WLL unit is scanning for ISS signal. -/
def SignalRescan : SignalState := 1

/-- SignalLost means WLL unit failed to locate ISS signal. -/
def SignalLost : SignalState := 2

/-- parser.BatteryState (src/parser/constants.go). -/
abbrev BatteryState := Int

/-- BatteryNominal means ISS battery does not require replacement. -/
def BatteryNominal : BatteryState := 0

/-- BatteryWarning means ISS battery requires replacement. -/
def BatteryWarning : BatteryState := 1

/-- parser.UpdateMethod (src/parser/constants.go): how the Report state is
updated. -/
inductive UpdateMethod where
  | http
  | udp
  | json
deriving DecidableEq

/-- parser.Error (src/parser/error.go): a generic error message provided by
the WLL unit. -/
structure Error where
  Code : Int := 0
  Message : String := ""
deriving DecidableEq

/-- parser.WeatherISS (src/parser/http.go): weather conditions from ISS.
Every field is a nullable pointer in the source, hence an `Option`. -/
structure WeatherISS where
  TransmitterID : Option Int := none
  Temperature : Option F64 := none
  Humidity : Option F64 := none
  Dewpoint : Option F64 := none
  Wetbulb : Option F64 := none
  HeatIndex : Option F64 := none
  WindChill : Option F64 := none
  THWIndex : Option F64 := none
  THSWIndex : Option F64 := none
  WindSpeedLast : Option F64 := none
  WindDirLast : Option F64 := none
  WindSpeedAvgLast1Min : Option F64 := none
  WindDirAvgLast1Min : Option F64 := none
  WindSpeedAvgLast2Min : Option F64 := none
  WindDirAvgLast2Min : Option F64 := none
  WindSpeedHighLast2Min : Option F64 := none
  WindDirAtHighLast2Min : Option F64 := none
  WindSpeedAvgLast10Min : Option F64 := none
  WindDirAvgLast10Min : Option F64 := none
  WindSpeedHighLast10Min : Option F64 := none
  WindDirAtHighLast10Min : Option F64 := none
  RainSize : Option F64 := none
  RainRateLast : Option F64 := none
  RainRateHigh : Option F64 := none
  RainLast15Min : Option F64 := none
  RainRateHighLast15Min : Option F64 := none
  RainLast60Min : Option F64 := none
  RainLast24Hour : Option F64 := none
  RainStorm : Option F64 := none
  RainStormStartAt : Option EpochTime := none
  SolarRad : Option F64 := none
  UVIndex : Option F64 := none
  RXState : Option SignalState := none
  TransBatteryFlag : Option BatteryState := none
  RainfallDaily : Option F64 := none
  RainfallMonthly : Option F64 := none
  RainfallYear : Option F64 := none
  RainStormLast : Option F64 := none
  RainStormLastStartAt : Option EpochTime := none
  RainStormLastEndAt : Option EpochTime := none
deriving DecidableEq

/-- parser.WeatherLSSBarometer (src/parser/http.go): weather conditions from
the LSS barometer sensor. -/
structure WeatherLSSBarometer where
  BarometerSeaLevel : Option F64 := none
  BarometerTrend : Option F64 := none
  BarometerAbsolute : Option F64 := none
deriving DecidableEq

/-- parser.WeatherLSSTempRh (src/parser/http.go): weather conditions from the
LSS temperature and humidity sensors. -/
structure WeatherLSSTempRh where
  TemperatureIndoor : Option F64 := none
  HumidityIndoor : Option F64 := none
  DewPointIndoor : Option F64 := none
  HeatIndexIndoor : Option F64 := none
deriving DecidableEq

/-- Dynamic content of `EntryHTTP.Values` (an `interface{}` in the source):
either a typed pointer produced by `EntryHTTP.UnmarshalJSON`, or the nil
interface. -/
inductive EntryValues where
  | iss (v : WeatherISS)
  | lssBarometer (v : WeatherLSSBarometer)
  | lssTempRh (v : WeatherLSSTempRh)
  | nil
deriving DecidableEq

/-- parser.EntryHTTP (src/parser/http.go): a union type containing one
weather-condition record of the HTTP batch. -/
structure EntryHTTP where
  LogicalSensorID : Option Int := none
  DataStructureType : Option RecordType := none
  Values : EntryValues := .nil
deriving DecidableEq

/-- parser.WeatherHTTP (src/parser/http.go): HTTP weather data.  `DeviceID`
is a plain Go string (absent key decodes to `""`); `Timestamp` is a nullable
pointer. -/
structure WeatherHTTP where
  DeviceID : String := ""
  Timestamp : Option EpochTime := none
  Conditions : List EntryHTTP := []
deriving DecidableEq

/-- parser.ConditionsHTTP (src/parser/http.go): weather conditions retrieved
over HTTP.  Both fields are nullable pointers. -/
structure ConditionsHTTP where
  Data : Option WeatherHTTP := none
  Error : Option Error := none
deriving DecidableEq

/-- parser.EntryUDP (src/parser/enable_udp.go is the broadcast response;
EntryUDP itself is in src/parser/error.go): one UDP weather record. -/
structure EntryUDP where
  LogicalSensorID : Option Int := none
  DataStructureType : Option RecordType := none
  TransmitterID : Option Int := none
  WindSpeedLast : Option F64 := none
  WindDirLast : Option F64 := none
  RainSize : Option F64 := none
  RainRateLast : Option F64 := none
  RainLast15Min : Option F64 := none
  RainLast60Min : Option F64 := none
  RainLast24Hour : Option F64 := none
  RainStorm : Option F64 := none
  RainStormStartAt : Option EpochTime := none
  RainfallDaily : Option F64 := none
  RainfallMonthly : Option F64 := none
  RainfallYear : Option F64 := none
  WindSpeedHighLast10Min : Option F64 := none
  WindDirAtHighLast10Min : Option F64 := none
deriving DecidableEq

/-- parser.ConditionsUDP (src/parser/error.go): weather conditions received
over UDP. -/
structure ConditionsUDP where
  DeviceID : String := ""
  Timestamp : Option EpochTime := none
  Conditions : List EntryUDP := []
deriving DecidableEq

/-- parser.ConnInfo (src/parser/enable_udp.go): UDP broadcast parameters of a
lease response. -/
structure ConnInfo where
  Port : Int := 0
  Duration : Int := 0
deriving DecidableEq

end Parser

open Parser (F64 EpochTime)

/-- JSON-visible state of a `Report` (src/report.go lines 22-78): the exported
fields, exactly the ones `json.Marshal` serializes.  This tuple of fields is
also used as the model of the canonical serialized bytes (see file header).
Go zero values: `""` for strings, the zero time (modelled `0`) for
`Timestamp`, nil (`none`) for every pointer. -/
structure ReportData where
  DeviceID : String := ""
  Timestamp : EpochTime := 0
  Temperature : Option F64 := none
  Humidity : Option F64 := none
  Dewpoint : Option F64 := none
  Wetbulb : Option F64 := none
  HeatIndex : Option F64 := none
  WindChill : Option F64 := none
  THWIndex : Option F64 := none
  THSWIndex : Option F64 := none
  WindSpeedLast : Option F64 := none
  WindDirLast : Option F64 := none
  WindSpeedAvgLast1Min : Option F64 := none
  WindDirAvgLast1Min : Option F64 := none
  WindSpeedAvgLast2Min : Option F64 := none
  WindDirAvgLast2Min : Option F64 := none
  WindSpeedHighLast2Min : Option F64 := none
  WindDirAtHighLast2Min : Option F64 := none
  WindSpeedAvgLast10Min : Option F64 := none
  WindDirAvgLast10Min : Option F64 := none
  WindSpeedHighLast10Min : Option F64 := none
  WindDirAtHighLast10Min : Option F64 := none
  RainSize : Option F64 := none
  RainRateLast : Option F64 := none
  RainRateHigh : Option F64 := none
  RainLast15Min : Option F64 := none
  RainRateHighLast15Min : Option F64 := none
  RainLast60Min : Option F64 := none
  RainLast24Hour : Option F64 := none
  RainStorm : Option F64 := none
  RainStormStartAt : Option EpochTime := none
  SolarRad : Option F64 := none
  UVIndex : Option F64 := none
  RXState : String := ""
  TransBatteryFlag : String := ""
  RainfallDaily : Option F64 := none
  RainfallMonthly : Option F64 := none
  RainfallYear : Option F64 := none
  RainStormLast : Option F64 := none
  RainStormLastStartAt : Option EpochTime := none
  RainStormLastEndAt : Option EpochTime := none
  BarometerSeaLevel : Option F64 := none
  BarometerTrend : Option F64 := none
  BarometerAbsolute : Option F64 := none
  TemperatureIndoor : Option F64 := none
  HumidityIndoor : Option F64 := none
  DewPointIndoor : Option F64 := none
  HeatIndexIndoor : Option F64 := none
deriving DecidableEq

/-- Report (src/report.go): the latest weather report.  `data` holds the
exported (JSON-visible) fields; the remaining fields are the unexported
bookkeeping fields.  `notify` models the capacity-1 `chan bool` as its queued
contents; `lastChecksum`/`lastBytes` both carry the canonical serialized form
(`none` models the initial `""` checksum / nil byte slice, which no computed
checksum ever equals since an MD5 hex digest is never empty).  The mutex has
no model state (merges are atomic transitions). -/
structure Report where
  data : ReportData := {}
  notify : List Bool := []
  verbose : Bool := false
  lastChecksum : Option ReportData := none
  lastBytes : Option ReportData := none
deriving DecidableEq

/-- NewReport (src/report.go lines 90-99) returns a new Report state; the
notification channel it also returns is the `notify` field of the result. -/
def NewReport (verbose : Bool) : Report :=
  { data := {}
    notify := []
    verbose := verbose
    lastChecksum := none
    lastBytes := none }

/-- Model of `json.Marshal` on a Report: serializes exactly the exported
fields, i.e. projects out `data`. -/
def Report.marshal (r : Report) : ReportData :=
  r.data

/-- Report.checksum (src/report.go lines 353-362): returns the MD5 checksum of
the Report state and its JSON representation.  Under the identity model of
MD5 over the canonical serialization, both components are `r.marshal`; the
error path (`json.Marshal` failure) cannot occur for this field set, so the
model is total. -/
def Report.checksum (r : Report) : ReportData × ReportData :=
  (r.marshal, r.marshal)

/-- Report.updateHook (src/report.go lines 317-348), called after UpdateHTTP,
UpdateUDP and UpdateJSON with the Report already mutated: computes the new
checksum; returns with no further effect if the unit-health fields are unset;
otherwise, when the checksum changed, sets `Timestamp` to the caller-supplied
event time, stores the recomputed checksum and serialized bytes, and performs
a non-blocking send on the capacity-1 notify channel. -/
def Report.updateHook (r : Report) (method : Parser.UpdateMethod)
    (timestamp : EpochTime) : Report :=
  let newChecksum := r.checksum.fst
  -- ignore if no ISS transmitter or ISS transmitter battery flag is given
  if r.data.RXState = "" ∨ r.data.TransBatteryFlag = "" then
    r
  -- only update internals, timestamp, and notify if new content
  else if some newChecksum ≠ r.lastChecksum then
    let r1 : Report := { r with data := { r.data with Timestamp := timestamp } }
    { r1 with
      lastChecksum := some r1.checksum.fst
      lastBytes := some r1.checksum.snd
      notify := if r1.notify.length < 1 then r1.notify ++ [true] else r1.notify }
  else
    r

/-- Report.processISS (src/report.go lines 366-436): synchronizes the Report
state with the provided ISS weather conditions. -/
def ReportData.processISS (r : ReportData) (v : Parser.WeatherISS) : ReportData :=
  { r with
    Temperature := v.Temperature
    Humidity := v.Humidity
    Dewpoint := v.Dewpoint
    Wetbulb := v.Wetbulb
    HeatIndex := v.HeatIndex
    WindChill := v.WindChill
    THWIndex := v.THWIndex
    THSWIndex := v.THSWIndex
    WindSpeedLast := v.WindSpeedLast
    WindDirLast := v.WindDirLast
    WindSpeedAvgLast1Min := v.WindSpeedAvgLast1Min
    WindDirAvgLast1Min := v.WindDirAvgLast1Min
    WindSpeedAvgLast2Min := v.WindSpeedAvgLast2Min
    WindDirAvgLast2Min := v.WindDirAvgLast2Min
    WindSpeedHighLast2Min := v.WindSpeedHighLast2Min
    WindDirAtHighLast2Min := v.WindDirAtHighLast2Min
    WindSpeedAvgLast10Min := v.WindSpeedAvgLast10Min
    WindDirAvgLast10Min := v.WindDirAvgLast10Min
    WindSpeedHighLast10Min := v.WindSpeedHighLast10Min
    WindDirAtHighLast10Min := v.WindDirAtHighLast10Min
    RainSize := v.RainSize
    RainRateLast := v.RainRateLast
    RainRateHigh := v.RainRateHigh
    RainLast15Min := v.RainLast15Min
    RainRateHighLast15Min := v.RainRateHighLast15Min
    RainLast60Min := v.RainLast60Min
    RainLast24Hour := v.RainLast24Hour
    RainStorm := v.RainStorm
    RainStormStartAt :=
      match v.RainStormStartAt with
      | some t => some t
      | none => r.RainStormStartAt
    SolarRad := v.SolarRad
    UVIndex := v.UVIndex
    RXState :=
      match v.RXState with
      | some s =>
        if s = Parser.SignalSynced then "Synced"
        else if s = Parser.SignalRescan then "Rescan"
        else if s = Parser.SignalLost then "Lost"
        else r.RXState
      | none => r.RXState
    TransBatteryFlag :=
      match v.TransBatteryFlag with
      | some s =>
        if s = Parser.BatteryNominal then "Nominal"
        else if s = Parser.BatteryWarning then "Warning"
        else r.TransBatteryFlag
      | none => r.TransBatteryFlag
    RainfallDaily := v.RainfallDaily
    RainfallMonthly := v.RainfallMonthly
    RainfallYear := v.RainfallYear
    RainStormLast := v.RainStormLast
    RainStormLastStartAt :=
      match v.RainStormLastStartAt with
      | some t => some t
      | none => r.RainStormLastStartAt
    RainStormLastEndAt :=
      match v.RainStormLastEndAt with
      | some t => some t
      | none => r.RainStormLastEndAt }

/-- Report.processLSSBarometer (src/report.go lines 440-444). -/
def ReportData.processLSSBarometer (r : ReportData)
    (v : Parser.WeatherLSSBarometer) : ReportData :=
  { r with
    BarometerSeaLevel := v.BarometerSeaLevel
    BarometerTrend := v.BarometerTrend
    BarometerAbsolute := v.BarometerAbsolute }

/-- Report.processLSSTempRh (src/report.go lines 448-453). -/
def ReportData.processLSSTempRh (r : ReportData)
    (v : Parser.WeatherLSSTempRh) : ReportData :=
  { r with
    TemperatureIndoor := v.TemperatureIndoor
    HumidityIndoor := v.HumidityIndoor
    DewPointIndoor := v.DewPointIndoor
    HeatIndexIndoor := v.HeatIndexIndoor }

/-- Body of the per-condition loop of UpdateHTTP (src/report.go lines
116-130): `structure := *c.DataStructureType` dereferences a possibly-nil
pointer (panic modelled as `none`), then the type assertions
`c.Values.(*parser.WeatherXxx)` panic unless the dynamic type matches; a
discriminator outside the three known record types matches no switch case and
the record is skipped. -/
def ReportData.applyEntryHTTP (r : ReportData) (c : Parser.EntryHTTP) :
    Option ReportData :=
  match c.DataStructureType with
  | none => none
  | some t =>
    if t = Parser.RecordISS then
      match c.Values with
      | .iss v => some (r.processISS v)
      | _ => none
    else if t = Parser.RecordLSSBarometer then
      match c.Values with
      | .lssBarometer v => some (r.processLSSBarometer v)
      | _ => none
    else if t = Parser.RecordLSSTempRh then
      match c.Values with
      | .lssTempRh v => some (r.processLSSTempRh v)
      | _ => none
    else
      some r

/-- Iteration of UpdateHTTP's condition loop over the whole batch; a panic in
any record aborts the call. -/
def ReportData.applyEntriesHTTP : ReportData → List Parser.EntryHTTP →
    Option ReportData
  | r, [] => some r
  | r, c :: rest =>
    match r.applyEntryHTTP c with
    | none => none
    | some r1 => r1.applyEntriesHTTP rest

/-- Report.UpdateHTTP (src/report.go lines 103-133): atomically updates the
Report state using weather conditions retrieved over HTTP.  Result `none`
models a panic (`new.Data` nil dereference at line 113, a nil
`DataStructureType` or failed type assertion in the loop, or the nil
`new.Data.Timestamp` dereference at line 132); `some (r, some msg)` models
an error return (state untouched, the error check precedes all mutation);
`some (r, none)` is a successful return with post state `r`. -/
def Report.UpdateHTTP (r : Report) (new : Parser.ConditionsHTTP) :
    Option (Report × Option String) :=
  -- ensure no error in conditions
  match new.Error with
  | some e => some (r, some e.Message)
  | none =>
    -- set report header (dereferences new.Data)
    match new.Data with
    | none => none
    | some data =>
      match ReportData.applyEntriesHTTP
          { r.data with DeviceID := data.DeviceID } data.Conditions with
      | none => none
      | some d1 =>
        -- updateHook's timestamp argument dereferences new.Data.Timestamp
        match data.Timestamp with
        | none => none
        | some ts =>
          some (Report.updateHook { r with data := d1 } .http ts, none)

/-- Body of the per-condition loop of UpdateUDP (src/report.go lines
145-165). -/
def ReportData.applyEntryUDP (r : ReportData) (c : Parser.EntryUDP) :
    ReportData :=
  { r with
    WindSpeedLast := c.WindSpeedLast
    WindDirLast := c.WindDirLast
    RainSize := c.RainSize
    RainRateLast := c.RainRateLast
    RainLast15Min := c.RainLast15Min
    RainLast60Min := c.RainLast60Min
    RainLast24Hour := c.RainLast24Hour
    RainStorm := c.RainStorm
    RainStormStartAt :=
      match c.RainStormStartAt with
      | some t => some t
      | none => r.RainStormStartAt
    RainfallDaily := c.RainfallDaily
    RainfallMonthly := c.RainfallMonthly
    RainfallYear := c.RainfallYear
    WindSpeedHighLast10Min := c.WindSpeedHighLast10Min
    WindDirAtHighLast10Min := c.WindDirAtHighLast10Min }

/-- Mutation part of UpdateUDP (src/report.go lines 142-165): set the report
header, then load every condition of the broadcast into the report. -/
def ReportData.applyUDP (r : ReportData) (new : Parser.ConditionsUDP) :
    ReportData :=
  new.Conditions.foldl ReportData.applyEntryUDP { r with DeviceID := new.DeviceID }

/-- Report.UpdateUDP (src/report.go lines 137-168): atomically updates the
Report state using weather conditions received over UDP.  `none` models the
panic of the `new.Timestamp.Time()` nil dereference at line 167 (which in the
source occurs after the mutations); otherwise the call succeeds (updateHook's
error path is unreachable in the model). -/
def Report.UpdateUDP (r : Report) (new : Parser.ConditionsUDP) : Option Report :=
  match new.Timestamp with
  | none => none
  | some ts =>
    some (Report.updateHook { r with data := r.data.applyUDP new } .udp ts)

/-- Sequential application of UpdateUDP to a list of broadcasts, as performed
by successive iterations of the UDP event loop (src/engine.go line 183). -/
def Report.mergeSeqUDP : Report → List Parser.ConditionsUDP → Option Report
  | r, [] => some r
  | r, c :: rest =>
    match r.UpdateUDP c with
    | none => none
    | some r1 => r1.mergeSeqUDP rest

/-- Report.UpdateJSON (src/report.go lines 173-242): atomically updates the
Report state using a provided JSON payload.  The payload is modelled in
parsed form: `none` for bytes that fail to unmarshal as a Report, `some n`
for a payload whose parse produces the visible fields `n`.  The field-by-field
synchronization copies every exported field of `n` onto `r` EXCEPT
`Timestamp`, which the source never copies; `now` models `time.Now()` passed
to updateHook at line 241. -/
def Report.UpdateJSON (r : Report) (payload : Option ReportData)
    (now : EpochTime) : Except String Report :=
  -- attempt parsing
  match payload with
  | none => .error "json unmarshal failure"
  | some n =>
    -- synchronize all data fields
    let d : ReportData :=
      { DeviceID := n.DeviceID
        Timestamp := r.data.Timestamp
        Temperature := n.Temperature
        Humidity := n.Humidity
        Dewpoint := n.Dewpoint
        Wetbulb := n.Wetbulb
        HeatIndex := n.HeatIndex
        WindChill := n.WindChill
        THWIndex := n.THWIndex
        THSWIndex := n.THSWIndex
        WindSpeedLast := n.WindSpeedLast
        WindDirLast := n.WindDirLast
        WindSpeedAvgLast1Min := n.WindSpeedAvgLast1Min
        WindDirAvgLast1Min := n.WindDirAvgLast1Min
        WindSpeedAvgLast2Min := n.WindSpeedAvgLast2Min
        WindDirAvgLast2Min := n.WindDirAvgLast2Min
        WindSpeedHighLast2Min := n.WindSpeedHighLast2Min
        WindDirAtHighLast2Min := n.WindDirAtHighLast2Min
        WindSpeedAvgLast10Min := n.WindSpeedAvgLast10Min
        WindDirAvgLast10Min := n.WindDirAvgLast10Min
        WindSpeedHighLast10Min := n.WindSpeedHighLast10Min
        WindDirAtHighLast10Min := n.WindDirAtHighLast10Min
        RainSize := n.RainSize
        RainRateLast := n.RainRateLast
        RainRateHigh := n.RainRateHigh
        RainLast15Min := n.RainLast15Min
        RainRateHighLast15Min := n.RainRateHighLast15Min
        RainLast60Min := n.RainLast60Min
        RainLast24Hour := n.RainLast24Hour
        RainStorm := n.RainStorm
        RainStormStartAt := n.RainStormStartAt
        SolarRad := n.SolarRad
        UVIndex := n.UVIndex
        RXState := n.RXState
        TransBatteryFlag := n.TransBatteryFlag
        RainfallDaily := n.RainfallDaily
        RainfallMonthly := n.RainfallMonthly
        RainfallYear := n.RainfallYear
        RainStormLast := n.RainStormLast
        RainStormLastStartAt := n.RainStormLastStartAt
        RainStormLastEndAt := n.RainStormLastEndAt
        BarometerSeaLevel := n.BarometerSeaLevel
        BarometerTrend := n.BarometerTrend
        BarometerAbsolute := n.BarometerAbsolute
        TemperatureIndoor := n.TemperatureIndoor
        HumidityIndoor := n.HumidityIndoor
        DewPointIndoor := n.DewPointIndoor
        HeatIndexIndoor := n.HeatIndexIndoor }
    .ok (Report.updateHook { r with data := d } .json now)

/-- Report.Copy (src/report.go lines 246-268): generates a new deep copy of
the Report state by marshalling the current report, unmarshalling it into a
fresh `NewReport` (which re-populates every exported field including
`Timestamp`), then syncing the private fields onto the fresh mutex and
notification channel.  The marshal/unmarshal of a Report's own output cannot
fail for this field set, so the model is total and always returns `.ok`. -/
def Report.Copy (r : Report) : Except String Report :=
  let buff := r.marshal
  let report := NewReport r.verbose
  .ok { report with
        data := buff
        lastChecksum := r.lastChecksum
        lastBytes := r.lastBytes }

/-- Report.Encode (src/report.go lines 279-291): returns the zlib-compressed
`lastBytes`.  Compression is modelled as the lossless identity; a nil
`lastBytes` compresses to a stream whose decompressed contents are empty,
modelled `none`. -/
def Report.Encode (r : Report) : Option ReportData :=
  r.lastBytes

/-- Report.Decode (src/report.go lines 295-310): decompresses the payload and
feeds the decompressed bytes to UpdateJSON.  The payload is modelled by its
decompressed contents: `none` (empty bytes, on which `json.Unmarshal` fails
with an unexpected-end-of-input error) or `some d` (bytes that parse as the
Report fields `d`).  `now` models `time.Now()` inside UpdateJSON. -/
def Report.Decode (r : Report) (payload : Option ReportData)
    (now : EpochTime) : Except String Report :=
  r.UpdateJSON payload now

namespace Parser

/-- Generic JSON-object view of one element of the `conditions` array, the
input to `EntryHTTP.UnmarshalJSON` (src/parser/http.go lines 114-139).  A
well-formed JSON object yields the optional header fields plus its projection
onto each of the three candidate record schemas (every schema field is
optional, so any object projects onto any schema; payloads whose values have
the wrong JSON type are outside this model). -/
structure EntryJSON where
  lsid : Option Int := none
  dataStructureType : Option RecordType := none
  issView : WeatherISS := {}
  baroView : WeatherLSSBarometer := {}
  tempRhView : WeatherLSSTempRh := {}

/-- EntryHTTP.UnmarshalJSON (src/parser/http.go lines 114-139): reads the
partial condition header, then switches on `*c.DataStructureType` (a nil
discriminator pointer panics, modelled `none`).  For the three known record
types it allocates the matching value struct and recursively parses the
payload into it.  For any other discriminator it sets `e.Values = nil` and
then calls `json.Unmarshal(payload, nil)`, which returns an
`InvalidUnmarshalError` ("json: Unmarshal(nil)") — an error result, not a
skip. -/
def EntryHTTP.unmarshalJSON (p : EntryJSON) : Option (Except String EntryHTTP) :=
  match p.dataStructureType with
  | none => none
  | some t =>
    if t = RecordISS then
      some (.ok { LogicalSensorID := p.lsid, DataStructureType := some t,
                  Values := .iss p.issView })
    else if t = RecordLSSBarometer then
      some (.ok { LogicalSensorID := p.lsid, DataStructureType := some t,
                  Values := .lssBarometer p.baroView })
    else if t = RecordLSSTempRh then
      some (.ok { LogicalSensorID := p.lsid, DataStructureType := some t,
                  Values := .lssTempRh p.tempRhView })
    else
      some (.error "json: Unmarshal(nil)")

/-- encoding/json's decoding of the `conditions` array: elements are decoded
in order through `EntryHTTP.UnmarshalJSON`, and the first error returned by a
custom unmarshaler aborts the entire `json.Unmarshal` call (a panic inside a
custom unmarshaler propagates). -/
def parseEntryList : List EntryJSON → Option (Except String (List EntryHTTP))
  | [] => some (.ok [])
  | p :: rest =>
    match EntryHTTP.unmarshalJSON p with
    | none => none
    | some (.error m) => some (.error m)
    | some (.ok e) =>
      match parseEntryList rest with
      | none => none
      | some (.error m) => some (.error m)
      | some (.ok es) => some (.ok (e :: es))

/-- Generic JSON-object view of the `data` object of an HTTP conditions
payload (schema `WeatherHTTP`). -/
structure WeatherJSON where
  did : String := ""
  ts : Option EpochTime := none
  conditions : List EntryJSON := []

/-- Generic JSON-object view of a full HTTP conditions payload (schema
`ConditionsHTTP`): both top-level keys optional. -/
structure ConditionsJSON where
  data : Option WeatherJSON := none
  error : Option Error := none

/-- ParseHTTP (src/parser/http.go lines 103-110): `json.Unmarshal` of a
well-formed payload into `ConditionsHTTP`.  Absent `data`/`error` keys leave
nil pointers; a present `data` object has its `conditions` elements decoded
through `EntryHTTP.UnmarshalJSON`, whose first error (or panic, `none`) aborts
the whole parse. -/
def ParseHTTP (j : ConditionsJSON) : Option (Except String ConditionsHTTP) :=
  match j.data with
  | none => some (.ok { Data := none, Error := j.error })
  | some w =>
    match parseEntryList w.conditions with
    | none => none
    | some (.error m) => some (.error m)
    | some (.ok es) =>
      some (.ok { Data := some { DeviceID := w.did, Timestamp := w.ts,
                                 Conditions := es },
                  Error := j.error })

/-- Generic JSON-object view of a UDP broadcast payload (schema
`ConditionsUDP`): every key optional, no custom unmarshalers. -/
structure UDPJson where
  did : String := ""
  ts : Option EpochTime := none
  conditions : List EntryUDP := []

/-- ParseUDP (src/parser/error.go lines 50-57): `json.Unmarshal` of a
well-formed payload into `ConditionsUDP` always succeeds — every field is
optional, so in particular an absent `ts` key leaves the `Timestamp` pointer
nil. -/
def ParseUDP (p : UDPJson) : Except String ConditionsUDP :=
  .ok { DeviceID := p.did, Timestamp := p.ts, Conditions := p.conditions }

end Parser

/-- Client (src/unnamed/part_000): the Davis weather client.  Modelled state:
the owned Report, the UDP lease port (`0` = unassigned) and the time the last
UDP report was received.  The `Notify` channel is `report.notify`; the
discovery/engine goroutine plumbing (`unit`, `wg`) carries no merge-relevant
state. -/
structure Client where
  report : Report := NewReport false
  verbose : Bool := false
  udpPort : Int := 0
  udpLastReported : EpochTime := 0
deriving DecidableEq

/-- Managed (src/unnamed/part_000): initializes a fresh Report and returns a
client with Go zero values for `udpPort` and `udpLastReported`; the discovery
and engine goroutines it spawns are outside the model. -/
def Managed (verbose : Bool) : Client :=
  { report := NewReport verbose
    verbose := verbose
    udpPort := 0
    udpLastReported := 0 }

/-- Client.Report (src/unnamed/part_000 lines 117-120): returns the latest
weather report or an error, by delegating to Report.Copy. -/
def Client.Report (c : Client) : Except String Report :=
  c.report.Copy

/-- udpDeadline (src/engine.go line 29): UDP read deadline, 15 seconds, in
nanoseconds as a Go `time.Duration`. -/
def udpDeadline : Int := 15 * 1000000000

/-- Observable side effects of one watchdog tick: how many lease requests
(`fetchBroadcastResponse` calls) were issued and how many times the
`resolved` cancel function was called. -/
structure WatchdogObs where
  leaseRequests : Nat := 0
  resolvedCalls : Nat := 0
deriving DecidableEq

/-- Body of one tick of Client.udpWatchdog (src/engine.go lines 213-233):
if the age of the last UDP broadcast exceeds the deadline, issue one lease
request; on failure only log (previous lease state untouched); on success set
`udpPort` to the response's port and call `resolved` when the previous port
was 0.  `now` models `time.Now()`; `lease` is the outcome of the
`fetchBroadcastResponse` HTTP call (an external input). -/
def Client.udpWatchdogTick (c : Client) (now : EpochTime)
    (lease : Except String Parser.ConnInfo) : Client × WatchdogObs :=
  -- calculate age of last UDP broadcast
  let delta := now - c.udpLastReported
  if delta > udpDeadline then
    match lease with
    | .error _ => (c, { leaseRequests := 1, resolvedCalls := 0 })
    | .ok info =>
      let previousPort := c.udpPort
      ({ c with udpPort := info.Port },
       { leaseRequests := 1
         resolvedCalls := if previousPort = 0 then 1 else 0 })
  else
    (c, { leaseRequests := 0, resolvedCalls := 0 })

/-!
Proof infrastructure: every mutation an HTTP or UDP merge performs on the
visible fields is an instance of applying a "patch" — for each field either a
definite new value or "keep the previous value" — and patches compose.  This
characterization is what makes re-merging the same record set a no-op.
-/

/-- Right-biased combination of two optional field updates (the second update
wins when present). -/
def oc {α : Type} (a b : Option α) : Option α :=
  match b with
  | some v => some v
  | none => a

theorem getD_oc {α : Type} (x : α) (a b : Option α) :
    (oc a b).getD x = b.getD (a.getD x) := by
  cases b <;> rfl

theorem getD_getD {α : Type} (a : Option α) (x : α) :
    a.getD (a.getD x) = a.getD x := by
  cases a <;> rfl

/-- A per-field update of the visible Report fields other than `Timestamp`
(which no merge loop writes): `none` keeps the previous value. -/
structure Patch where
  DeviceID : Option String := none
  Temperature : Option (Option F64) := none
  Humidity : Option (Option F64) := none
  Dewpoint : Option (Option F64) := none
  Wetbulb : Option (Option F64) := none
  HeatIndex : Option (Option F64) := none
  WindChill : Option (Option F64) := none
  THWIndex : Option (Option F64) := none
  THSWIndex : Option (Option F64) := none
  WindSpeedLast : Option (Option F64) := none
  WindDirLast : Option (Option F64) := none
  WindSpeedAvgLast1Min : Option (Option F64) := none
  WindDirAvgLast1Min : Option (Option F64) := none
  WindSpeedAvgLast2Min : Option (Option F64) := none
  WindDirAvgLast2Min : Option (Option F64) := none
  WindSpeedHighLast2Min : Option (Option F64) := none
  WindDirAtHighLast2Min : Option (Option F64) := none
  WindSpeedAvgLast10Min : Option (Option F64) := none
  WindDirAvgLast10Min : Option (Option F64) := none
  WindSpeedHighLast10Min : Option (Option F64) := none
  WindDirAtHighLast10Min : Option (Option F64) := none
  RainSize : Option (Option F64) := none
  RainRateLast : Option (Option F64) := none
  RainRateHigh : Option (Option F64) := none
  RainLast15Min : Option (Option F64) := none
  RainRateHighLast15Min : Option (Option F64) := none
  RainLast60Min : Option (Option F64) := none
  RainLast24Hour : Option (Option F64) := none
  RainStorm : Option (Option F64) := none
  RainStormStartAt : Option (Option EpochTime) := none
  SolarRad : Option (Option F64) := none
  UVIndex : Option (Option F64) := none
  RXState : Option String := none
  TransBatteryFlag : Option String := none
  RainfallDaily : Option (Option F64) := none
  RainfallMonthly : Option (Option F64) := none
  RainfallYear : Option (Option F64) := none
  RainStormLast : Option (Option F64) := none
  RainStormLastStartAt : Option (Option EpochTime) := none
  RainStormLastEndAt : Option (Option EpochTime) := none
  BarometerSeaLevel : Option (Option F64) := none
  BarometerTrend : Option (Option F64) := none
  BarometerAbsolute : Option (Option F64) := none
  TemperatureIndoor : Option (Option F64) := none
  HumidityIndoor : Option (Option F64) := none
  DewPointIndoor : Option (Option F64) := none
  HeatIndexIndoor : Option (Option F64) := none
deriving DecidableEq

/-- Apply a patch to the visible fields; `Timestamp` is untouched. -/
def ReportData.applyPatch (d : ReportData) (p : Patch) : ReportData :=
  { DeviceID := p.DeviceID.getD d.DeviceID
    Timestamp := d.Timestamp
    Temperature := p.Temperature.getD d.Temperature
    Humidity := p.Humidity.getD d.Humidity
    Dewpoint := p.Dewpoint.getD d.Dewpoint
    Wetbulb := p.Wetbulb.getD d.Wetbulb
    HeatIndex := p.HeatIndex.getD d.HeatIndex
    WindChill := p.WindChill.getD d.WindChill
    THWIndex := p.THWIndex.getD d.THWIndex
    THSWIndex := p.THSWIndex.getD d.THSWIndex
    WindSpeedLast := p.WindSpeedLast.getD d.WindSpeedLast
    WindDirLast := p.WindDirLast.getD d.WindDirLast
    WindSpeedAvgLast1Min := p.WindSpeedAvgLast1Min.getD d.WindSpeedAvgLast1Min
    WindDirAvgLast1Min := p.WindDirAvgLast1Min.getD d.WindDirAvgLast1Min
    WindSpeedAvgLast2Min := p.WindSpeedAvgLast2Min.getD d.WindSpeedAvgLast2Min
    WindDirAvgLast2Min := p.WindDirAvgLast2Min.getD d.WindDirAvgLast2Min
    WindSpeedHighLast2Min := p.WindSpeedHighLast2Min.getD d.WindSpeedHighLast2Min
    WindDirAtHighLast2Min := p.WindDirAtHighLast2Min.getD d.WindDirAtHighLast2Min
    WindSpeedAvgLast10Min := p.WindSpeedAvgLast10Min.getD d.WindSpeedAvgLast10Min
    WindDirAvgLast10Min := p.WindDirAvgLast10Min.getD d.WindDirAvgLast10Min
    WindSpeedHighLast10Min := p.WindSpeedHighLast10Min.getD d.WindSpeedHighLast10Min
    WindDirAtHighLast10Min := p.WindDirAtHighLast10Min.getD d.WindDirAtHighLast10Min
    RainSize := p.RainSize.getD d.RainSize
    RainRateLast := p.RainRateLast.getD d.RainRateLast
    RainRateHigh := p.RainRateHigh.getD d.RainRateHigh
    RainLast15Min := p.RainLast15Min.getD d.RainLast15Min
    RainRateHighLast15Min := p.RainRateHighLast15Min.getD d.RainRateHighLast15Min
    RainLast60Min := p.RainLast60Min.getD d.RainLast60Min
    RainLast24Hour := p.RainLast24Hour.getD d.RainLast24Hour
    RainStorm := p.RainStorm.getD d.RainStorm
    RainStormStartAt := p.RainStormStartAt.getD d.RainStormStartAt
    SolarRad := p.SolarRad.getD d.SolarRad
    UVIndex := p.UVIndex.getD d.UVIndex
    RXState := p.RXState.getD d.RXState
    TransBatteryFlag := p.TransBatteryFlag.getD d.TransBatteryFlag
    RainfallDaily := p.RainfallDaily.getD d.RainfallDaily
    RainfallMonthly := p.RainfallMonthly.getD d.RainfallMonthly
    RainfallYear := p.RainfallYear.getD d.RainfallYear
    RainStormLast := p.RainStormLast.getD d.RainStormLast
    RainStormLastStartAt := p.RainStormLastStartAt.getD d.RainStormLastStartAt
    RainStormLastEndAt := p.RainStormLastEndAt.getD d.RainStormLastEndAt
    BarometerSeaLevel := p.BarometerSeaLevel.getD d.BarometerSeaLevel
    BarometerTrend := p.BarometerTrend.getD d.BarometerTrend
    BarometerAbsolute := p.BarometerAbsolute.getD d.BarometerAbsolute
    TemperatureIndoor := p.TemperatureIndoor.getD d.TemperatureIndoor
    HumidityIndoor := p.HumidityIndoor.getD d.HumidityIndoor
    DewPointIndoor := p.DewPointIndoor.getD d.DewPointIndoor
    HeatIndexIndoor := p.HeatIndexIndoor.getD d.HeatIndexIndoor }

/-- Sequential composition of two patches (the second wins field-wise). -/
def Patch.comb (p q : Patch) : Patch :=
  { DeviceID := oc p.DeviceID q.DeviceID
    Temperature := oc p.Temperature q.Temperature
    Humidity := oc p.Humidity q.Humidity
    Dewpoint := oc p.Dewpoint q.Dewpoint
    Wetbulb := oc p.Wetbulb q.Wetbulb
    HeatIndex := oc p.HeatIndex q.HeatIndex
    WindChill := oc p.WindChill q.WindChill
    THWIndex := oc p.THWIndex q.THWIndex
    THSWIndex := oc p.THSWIndex q.THSWIndex
    WindSpeedLast := oc p.WindSpeedLast q.WindSpeedLast
    WindDirLast := oc p.WindDirLast q.WindDirLast
    WindSpeedAvgLast1Min := oc p.WindSpeedAvgLast1Min q.WindSpeedAvgLast1Min
    WindDirAvgLast1Min := oc p.WindDirAvgLast1Min q.WindDirAvgLast1Min
    WindSpeedAvgLast2Min := oc p.WindSpeedAvgLast2Min q.WindSpeedAvgLast2Min
    WindDirAvgLast2Min := oc p.WindDirAvgLast2Min q.WindDirAvgLast2Min
    WindSpeedHighLast2Min := oc p.WindSpeedHighLast2Min q.WindSpeedHighLast2Min
    WindDirAtHighLast2Min := oc p.WindDirAtHighLast2Min q.WindDirAtHighLast2Min
    WindSpeedAvgLast10Min := oc p.WindSpeedAvgLast10Min q.WindSpeedAvgLast10Min
    WindDirAvgLast10Min := oc p.WindDirAvgLast10Min q.WindDirAvgLast10Min
    WindSpeedHighLast10Min := oc p.WindSpeedHighLast10Min q.WindSpeedHighLast10Min
    WindDirAtHighLast10Min := oc p.WindDirAtHighLast10Min q.WindDirAtHighLast10Min
    RainSize := oc p.RainSize q.RainSize
    RainRateLast := oc p.RainRateLast q.RainRateLast
    RainRateHigh := oc p.RainRateHigh q.RainRateHigh
    RainLast15Min := oc p.RainLast15Min q.RainLast15Min
    RainRateHighLast15Min := oc p.RainRateHighLast15Min q.RainRateHighLast15Min
    RainLast60Min := oc p.RainLast60Min q.RainLast60Min
    RainLast24Hour := oc p.RainLast24Hour q.RainLast24Hour
    RainStorm := oc p.RainStorm q.RainStorm
    RainStormStartAt := oc p.RainStormStartAt q.RainStormStartAt
    SolarRad := oc p.SolarRad q.SolarRad
    UVIndex := oc p.UVIndex q.UVIndex
    RXState := oc p.RXState q.RXState
    TransBatteryFlag := oc p.TransBatteryFlag q.TransBatteryFlag
    RainfallDaily := oc p.RainfallDaily q.RainfallDaily
    RainfallMonthly := oc p.RainfallMonthly q.RainfallMonthly
    RainfallYear := oc p.RainfallYear q.RainfallYear
    RainStormLast := oc p.RainStormLast q.RainStormLast
    RainStormLastStartAt := oc p.RainStormLastStartAt q.RainStormLastStartAt
    RainStormLastEndAt := oc p.RainStormLastEndAt q.RainStormLastEndAt
    BarometerSeaLevel := oc p.BarometerSeaLevel q.BarometerSeaLevel
    BarometerTrend := oc p.BarometerTrend q.BarometerTrend
    BarometerAbsolute := oc p.BarometerAbsolute q.BarometerAbsolute
    TemperatureIndoor := oc p.TemperatureIndoor q.TemperatureIndoor
    HumidityIndoor := oc p.HumidityIndoor q.HumidityIndoor
    DewPointIndoor := oc p.DewPointIndoor q.DewPointIndoor
    HeatIndexIndoor := oc p.HeatIndexIndoor q.HeatIndexIndoor }

theorem applyPatch_empty (d : ReportData) : d.applyPatch {} = d := rfl

theorem applyPatch_applyPatch (d : ReportData) (p q : Patch) :
    (d.applyPatch p).applyPatch q = d.applyPatch (p.comb q) := by
  simp only [ReportData.applyPatch, Patch.comb, getD_oc]

theorem applyPatch_self (d : ReportData) (p : Patch) :
    (d.applyPatch p).applyPatch p = d.applyPatch p := by
  simp only [ReportData.applyPatch, getD_getD]

theorem applyPatch_setTimestamp (d : ReportData) (t : EpochTime) (p : Patch) :
    ReportData.applyPatch { d with Timestamp := t } p
      = { d.applyPatch p with Timestamp := t } := rfl

theorem mapSome_getD {α : Type} (o : Option α) (d : Option α) :
    (o.map some).getD d = match o with
                          | some t => some t
                          | none => d := by
  cases o <;> rfl

theorem rxCase_getD (o : Option Parser.SignalState) (d : String) :
    (match o with
     | some s =>
       if s = Parser.SignalSynced then some "Synced"
       else if s = Parser.SignalRescan then some "Rescan"
       else if s = Parser.SignalLost then some "Lost"
       else none
     | none => none).getD d
    = (match o with
       | some s =>
         if s = Parser.SignalSynced then "Synced"
         else if s = Parser.SignalRescan then "Rescan"
         else if s = Parser.SignalLost then "Lost"
         else d
       | none => d) := by
  cases o with
  | none => rfl
  | some s => simp only; split_ifs <;> rfl

theorem tbCase_getD (o : Option Parser.BatteryState) (d : String) :
    (match o with
     | some s =>
       if s = Parser.BatteryNominal then some "Nominal"
       else if s = Parser.BatteryWarning then some "Warning"
       else none
     | none => none).getD d
    = (match o with
       | some s =>
         if s = Parser.BatteryNominal then "Nominal"
         else if s = Parser.BatteryWarning then "Warning"
         else d
       | none => d) := by
  cases o with
  | none => rfl
  | some s => simp only; split_ifs <;> rfl

/-- Patch performed by `processISS` on the visible fields. -/
def issPatch (v : Parser.WeatherISS) : Patch :=
  { Temperature := some v.Temperature
    Humidity := some v.Humidity
    Dewpoint := some v.Dewpoint
    Wetbulb := some v.Wetbulb
    HeatIndex := some v.HeatIndex
    WindChill := some v.WindChill
    THWIndex := some v.THWIndex
    THSWIndex := some v.THSWIndex
    WindSpeedLast := some v.WindSpeedLast
    WindDirLast := some v.WindDirLast
    WindSpeedAvgLast1Min := some v.WindSpeedAvgLast1Min
    WindDirAvgLast1Min := some v.WindDirAvgLast1Min
    WindSpeedAvgLast2Min := some v.WindSpeedAvgLast2Min
    WindDirAvgLast2Min := some v.WindDirAvgLast2Min
    WindSpeedHighLast2Min := some v.WindSpeedHighLast2Min
    WindDirAtHighLast2Min := some v.WindDirAtHighLast2Min
    WindSpeedAvgLast10Min := some v.WindSpeedAvgLast10Min
    WindDirAvgLast10Min := some v.WindDirAvgLast10Min
    WindSpeedHighLast10Min := some v.WindSpeedHighLast10Min
    WindDirAtHighLast10Min := some v.WindDirAtHighLast10Min
    RainSize := some v.RainSize
    RainRateLast := some v.RainRateLast
    RainRateHigh := some v.RainRateHigh
    RainLast15Min := some v.RainLast15Min
    RainRateHighLast15Min := some v.RainRateHighLast15Min
    RainLast60Min := some v.RainLast60Min
    RainLast24Hour := some v.RainLast24Hour
    RainStorm := some v.RainStorm
    RainStormStartAt := v.RainStormStartAt.map some
    SolarRad := some v.SolarRad
    UVIndex := some v.UVIndex
    RXState :=
      match v.RXState with
      | some s =>
        if s = Parser.SignalSynced then some "Synced"
        else if s = Parser.SignalRescan then some "Rescan"
        else if s = Parser.SignalLost then some "Lost"
        else none
      | none => none
    TransBatteryFlag :=
      match v.TransBatteryFlag with
      | some s =>
        if s = Parser.BatteryNominal then some "Nominal"
        else if s = Parser.BatteryWarning then some "Warning"
        else none
      | none => none
    RainfallDaily := some v.RainfallDaily
    RainfallMonthly := some v.RainfallMonthly
    RainfallYear := some v.RainfallYear
    RainStormLast := some v.RainStormLast
    RainStormLastStartAt := v.RainStormLastStartAt.map some
    RainStormLastEndAt := v.RainStormLastEndAt.map some }

/-- Patch performed by `processLSSBarometer`. -/
def baroPatch (v : Parser.WeatherLSSBarometer) : Patch :=
  { BarometerSeaLevel := some v.BarometerSeaLevel
    BarometerTrend := some v.BarometerTrend
    BarometerAbsolute := some v.BarometerAbsolute }

/-- Patch performed by `processLSSTempRh`. -/
def tempRhPatch (v : Parser.WeatherLSSTempRh) : Patch :=
  { TemperatureIndoor := some v.TemperatureIndoor
    HumidityIndoor := some v.HumidityIndoor
    DewPointIndoor := some v.DewPointIndoor
    HeatIndexIndoor := some v.HeatIndexIndoor }

/-- Patch setting only the device identifier. -/
def devPatch (did : String) : Patch :=
  { DeviceID := some did }

theorem processISS_patch (d : ReportData) (v : Parser.WeatherISS) :
    d.processISS v = d.applyPatch (issPatch v) := by
  simp only [ReportData.processISS, ReportData.applyPatch, issPatch,
    mapSome_getD, rxCase_getD, tbCase_getD, Option.getD_some, Option.getD_none]
  congr 1
  · cases v.RainStormStartAt <;> rfl
  · cases v.RainStormLastStartAt <;> rfl
  · cases v.RainStormLastEndAt <;> rfl

theorem processLSSBarometer_patch (d : ReportData) (v : Parser.WeatherLSSBarometer) :
    d.processLSSBarometer v = d.applyPatch (baroPatch v) := rfl

theorem processLSSTempRh_patch (d : ReportData) (v : Parser.WeatherLSSTempRh) :
    d.processLSSTempRh v = d.applyPatch (tempRhPatch v) := rfl

theorem setDeviceID_patch (d : ReportData) (did : String) :
    ReportData.applyPatch d (devPatch did) = { d with DeviceID := did } := rfl

/-- Patch of one HTTP record; `none` when processing it panics. -/
def entryPatchHTTP (c : Parser.EntryHTTP) : Option Patch :=
  match c.DataStructureType with
  | none => none
  | some t =>
    if t = Parser.RecordISS then
      match c.Values with
      | .iss v => some (issPatch v)
      | _ => none
    else if t = Parser.RecordLSSBarometer then
      match c.Values with
      | .lssBarometer v => some (baroPatch v)
      | _ => none
    else if t = Parser.RecordLSSTempRh then
      match c.Values with
      | .lssTempRh v => some (tempRhPatch v)
      | _ => none
    else
      some {}

theorem applyEntryHTTP_patch (d : ReportData) (c : Parser.EntryHTTP) :
    d.applyEntryHTTP c = (entryPatchHTTP c).map d.applyPatch := by
  unfold ReportData.applyEntryHTTP entryPatchHTTP
  cases c.DataStructureType with
  | none => rfl
  | some t =>
    simp only
    split_ifs <;> cases c.Values <;>
      simp [processISS_patch, processLSSBarometer_patch, processLSSTempRh_patch,
        applyPatch_empty]

/-- Combined patch of an HTTP record batch; `none` when any record panics. -/
def entriesPatchHTTP : List Parser.EntryHTTP → Option Patch
  | [] => some {}
  | c :: rest =>
    match entryPatchHTTP c with
    | none => none
    | some p => (entriesPatchHTTP rest).map (fun q => p.comb q)

theorem applyEntriesHTTP_patch (L : List Parser.EntryHTTP) :
    ∀ d : ReportData,
      ReportData.applyEntriesHTTP d L = (entriesPatchHTTP L).map d.applyPatch := by
  induction L with
  | nil =>
    intro d
    simp [ReportData.applyEntriesHTTP, entriesPatchHTTP, applyPatch_empty]
  | cons c rest ih =>
    intro d
    unfold ReportData.applyEntriesHTTP entriesPatchHTTP
    rw [applyEntryHTTP_patch]
    cases h : entryPatchHTTP c with
    | none => rfl
    | some p =>
      show ReportData.applyEntriesHTTP (d.applyPatch p) rest
        = Option.map d.applyPatch (Option.map (fun q => p.comb q) (entriesPatchHTTP rest))
      rw [ih]
      cases entriesPatchHTTP rest <;>
        simp [applyPatch_applyPatch]

/-- Patch of one UDP record. -/
def udpEntryPatch (c : Parser.EntryUDP) : Patch :=
  { WindSpeedLast := some c.WindSpeedLast
    WindDirLast := some c.WindDirLast
    RainSize := some c.RainSize
    RainRateLast := some c.RainRateLast
    RainLast15Min := some c.RainLast15Min
    RainLast60Min := some c.RainLast60Min
    RainLast24Hour := some c.RainLast24Hour
    RainStorm := some c.RainStorm
    RainStormStartAt := c.RainStormStartAt.map some
    RainfallDaily := some c.RainfallDaily
    RainfallMonthly := some c.RainfallMonthly
    RainfallYear := some c.RainfallYear
    WindSpeedHighLast10Min := some c.WindSpeedHighLast10Min
    WindDirAtHighLast10Min := some c.WindDirAtHighLast10Min }

theorem applyEntryUDP_patch (d : ReportData) (c : Parser.EntryUDP) :
    d.applyEntryUDP c = d.applyPatch (udpEntryPatch c) := by
  simp only [ReportData.applyEntryUDP, ReportData.applyPatch, udpEntryPatch,
    mapSome_getD, Option.getD_some, Option.getD_none]
  congr 1
  cases c.RainStormStartAt <;> rfl

/-- Combined patch of a whole UDP broadcast (header plus every record). -/
def udpPatch (new : Parser.ConditionsUDP) : Patch :=
  new.Conditions.foldl (fun p c => p.comb (udpEntryPatch c)) (devPatch new.DeviceID)

theorem applyUDP_patch (d : ReportData) (new : Parser.ConditionsUDP) :
    d.applyUDP new = d.applyPatch (udpPatch new) := by
  unfold ReportData.applyUDP udpPatch
  rw [show ({ d with DeviceID := new.DeviceID } : ReportData)
        = d.applyPatch (devPatch new.DeviceID) from rfl]
  generalize devPatch new.DeviceID = p
  induction new.Conditions generalizing p with
  | nil => rfl
  | cons c rest ih =>
    simp only [List.foldl_cons]
    rw [applyEntryUDP_patch, applyPatch_applyPatch, ih]

/-!
Case analysis of `updateHook`, and projection lemmas showing which fields the
individual merge steps leave alone.
-/

theorem updateHook_not_ready (r : Report) (m : Parser.UpdateMethod)
    (ts : EpochTime) (h : r.data.RXState = "" ∨ r.data.TransBatteryFlag = "") :
    Report.updateHook r m ts = r := by
  simp only [Report.updateHook]
  rw [if_pos h]

theorem updateHook_unchanged (r : Report) (m : Parser.UpdateMethod)
    (ts : EpochTime) (h : some r.data = r.lastChecksum) :
    Report.updateHook r m ts = r := by
  simp only [Report.updateHook]
  split_ifs with h1 h2 <;> first | rfl | exact absurd h h2

theorem updateHook_changed (r : Report) (m : Parser.UpdateMethod)
    (ts : EpochTime)
    (h1 : ¬(r.data.RXState = "" ∨ r.data.TransBatteryFlag = ""))
    (h2 : some r.data ≠ r.lastChecksum) :
    Report.updateHook r m ts
      = { r with
          data := { r.data with Timestamp := ts }
          lastChecksum := some { r.data with Timestamp := ts }
          lastBytes := some { r.data with Timestamp := ts }
          notify := if r.notify.length < 1 then r.notify ++ [true] else r.notify } := by
  have h2' : some r.checksum.fst ≠ r.lastChecksum := h2
  simp only [Report.updateHook]
  rw [if_neg h1, if_pos h2']
  rfl

/-- Whatever branch `updateHook` takes, every visible field except possibly
`Timestamp` is preserved (stated for an arbitrary `Timestamp`-blind
projection). -/
theorem updateHook_data_proj {α : Type} (f : ReportData → α)
    (hf : ∀ (d : ReportData) (t : EpochTime), f { d with Timestamp := t } = f d)
    (r : Report) (m : Parser.UpdateMethod) (ts : EpochTime) :
    f (Report.updateHook r m ts).data = f r.data := by
  simp only [Report.updateHook]
  split_ifs <;> first | rfl | exact hf r.data ts

/-- The UDP condition loop preserves any projection that each single record
application preserves. -/
theorem foldlUDP_proj {α : Type} (f : ReportData → α)
    (hc : ∀ (d : ReportData) (c : Parser.EntryUDP), f (d.applyEntryUDP c) = f d)
    (L : List Parser.EntryUDP) : ∀ d : ReportData,
    f (L.foldl ReportData.applyEntryUDP d) = f d := by
  induction L with
  | nil => intro d; rfl
  | cons c rest ih =>
    intro d
    simp only [List.foldl_cons]
    rw [ih, hc]

/-- A successful UpdateUDP call preserves every `Timestamp`-blind projection
that is untouched by the record loop and the header write. -/
theorem UpdateUDP_keep_proj {α : Type} (f : ReportData → α)
    (hhook : ∀ (d : ReportData) (t : EpochTime), f { d with Timestamp := t } = f d)
    (hentry : ∀ (d : ReportData) (c : Parser.EntryUDP), f (d.applyEntryUDP c) = f d)
    (hdev : ∀ (d : ReportData) (s : String), f { d with DeviceID := s } = f d)
    (r : Report) (new : Parser.ConditionsUDP) (r' : Report)
    (h : r.UpdateUDP new = some r') :
    f r'.data = f r.data := by
  unfold Report.UpdateUDP at h
  cases hT : new.Timestamp with
  | none => rw [hT] at h; exact absurd h (by simp)
  | some ts0 =>
    rw [hT] at h
    injection h with h'
    subst h'
    calc f (Report.updateHook { r with data := r.data.applyUDP new } .udp ts0).data
        = f (r.data.applyUDP new) := updateHook_data_proj f hhook _ _ _
      _ = f r.data := by
          unfold ReportData.applyUDP
          exact (foldlUDP_proj f hentry _ _).trans (hdev r.data new.DeviceID)

/-!
Claim theorems.
-/

/-- C7.  Atomicity of pull-merge on error: for every ConditionsHTTP value
carrying a non-null error indicator, UpdateHTTP returns a failure carrying the
error's message and leaves the entire Report state unchanged — the error
check precedes every mutation, so no data field, bookkeeping field or
notification is modified. -/
theorem http_error_atomic (r : Report) (new : Parser.ConditionsHTTP)
    (e : Parser.Error) (h : new.Error = some e) :
    r.UpdateHTTP new = some (r, some e.Message) := by
  unfold Report.UpdateHTTP
  rw [h]

/-- Error-carrying HTTP conditions value used as the C7 witness input. -/
def cErrW : Parser.ConditionsHTTP :=
  { Error := some { Code := 7, Message := "device busy" } }

/-- Witness for C7 at a concrete input. -/
theorem http_error_atomic_witness :
    Report.UpdateHTTP (NewReport false) cErrW
      = some (NewReport false, some "device busy") :=
  http_error_atomic (NewReport false) cErrW
    { Code := 7, Message := "device busy" } rfl

/-- C9.  Lease watchdog tick: when the time since the last received push
message exceeds the receive deadline, a single watchdog tick issues exactly
one lease request; on success it sets the lease port to the response's port
and calls the `resolved` signal exactly once iff the previous port was 0; on
lease-request failure the whole previous client state (lease port and
timestamp included) is left untouched for the next tick. -/
theorem watchdog_tick_lease (c : Client) (now : EpochTime)
    (lease : Except String Parser.ConnInfo)
    (h : now - c.udpLastReported > udpDeadline) :
    (c.udpWatchdogTick now lease).snd.leaseRequests = 1 ∧
    (∀ info : Parser.ConnInfo, lease = .ok info →
      (c.udpWatchdogTick now lease).fst.udpPort = info.Port ∧
      (c.udpWatchdogTick now lease).fst.udpLastReported = c.udpLastReported ∧
      (c.udpWatchdogTick now lease).snd.resolvedCalls
        = (if c.udpPort = 0 then 1 else 0)) ∧
    (∀ msg : String, lease = .error msg →
      (c.udpWatchdogTick now lease).fst = c) := by
  cases lease with
  | error msg =>
    refine ⟨?_, ?_, ?_⟩ <;>
      simp [Client.udpWatchdogTick, h]
  | ok info =>
    refine ⟨?_, ?_, ?_⟩ <;>
      simp [Client.udpWatchdogTick, h]

/-- Witness for C9 at a concrete input: fresh managed client (port 0, last
report at time 0), tick at 16s with a successful lease response. -/
theorem watchdog_tick_lease_witness :
    ((Managed false).udpWatchdogTick 16000000000
        (.ok { Port := 22222, Duration := 14400 })).snd.leaseRequests = 1 ∧
    ((Managed false).udpWatchdogTick 16000000000
        (.ok { Port := 22222, Duration := 14400 })).fst.udpPort = 22222 ∧
    ((Managed false).udpWatchdogTick 16000000000
        (.ok { Port := 22222, Duration := 14400 })).snd.resolvedCalls = 1 := by
  have h := watchdog_tick_lease (Managed false) 16000000000
    (.ok { Port := 22222, Duration := 14400 }) (by decide)
  exact ⟨h.1, (h.2.1 _ rfl).1, (h.2.1 _ rfl).2.2⟩

/-- UDP broadcast payload with no `ts` key (C10). -/
def udpNoTs : Parser.UDPJson :=
  { did := "001D0A100000" }

/-- HTTP conditions payload whose `data` object lacks the `ts` key (C10). -/
def httpNoTs : Parser.ConditionsJSON :=
  { data := some { did := "001D0A100000" } }

/-- C10.  Totality gap at the merge interface: ParseUDP and ParseHTTP accept
well-formed payloads with the `ts` field (resp. the `data` object) absent,
leaving the Timestamp (resp. Data) pointer nil, and UpdateUDP / UpdateHTTP
then panic on those decoder-accepted values (`none` result) instead of
returning. -/
theorem merge_nil_timestamp_panics :
    Parser.ParseUDP udpNoTs = .ok { DeviceID := "001D0A100000" } ∧
    Report.UpdateUDP (NewReport false) { DeviceID := "001D0A100000" } = none ∧
    Parser.ParseHTTP httpNoTs
      = some (.ok { Data := some { DeviceID := "001D0A100000" } }) ∧
    Report.UpdateHTTP (NewReport false) { Data := some { DeviceID := "001D0A100000" } }
      = none ∧
    Parser.ParseHTTP {} = some (.ok {}) ∧
    Report.UpdateHTTP (NewReport false) {} = none :=
  ⟨rfl, rfl, rfl, rfl, rfl, rfl⟩

/-- C2 (counterexample).  On a freshly constructed managed client on which no
weather update has ever been applied, Client.Report() does NOT fail: it
returns a zero-valued Report (every measurement unset) with no error. -/
theorem report_snapshot_fresh_succeeds :
    Client.Report (Managed false) = .ok (NewReport false) := rfl

/-- C2 (amended).  Client.Report() never fails: for every client it returns a
deep copy of the current Report — same visible fields and same stored
checksum/bytes, with a fresh (empty) notification queue — even when no report
has ever been produced, in which case the copy is the zero-valued Report. -/
theorem report_snapshot_total (c : Client) :
    Client.Report c
      = .ok { data := c.report.data
              notify := []
              verbose := c.report.verbose
              lastChecksum := c.report.lastChecksum
              lastBytes := c.report.lastBytes } := rfl

/-- Known-discriminator (ISS) record payload used in the C4 batch. -/
def issEntryJ : Parser.EntryJSON :=
  { dataStructureType := some Parser.RecordISS
    issView := { Temperature := some 72 } }

/-- Unknown-discriminator record payload (data_structure_type = 2). -/
def unknownEntryJ : Parser.EntryJSON :=
  { dataStructureType := some 2 }

/-- HTTP batch containing one valid ISS record followed by one record with an
unknown discriminator. -/
def batchJ : Parser.ConditionsJSON :=
  { data := some { did := "X", ts := some 100,
                   conditions := [issEntryJ, unknownEntryJ] } }

/-- The same batch without the unknown-discriminator record. -/
def batchJok : Parser.ConditionsJSON :=
  { data := some { did := "X", ts := some 100, conditions := [issEntryJ] } }

/-- Parse result of `batchJok`. -/
def batchJokParsed : Parser.ConditionsHTTP :=
  { Data := some
      { DeviceID := "X"
        Timestamp := some 100
        Conditions := [{ DataStructureType := some Parser.RecordISS
                         Values := .iss { Temperature := some 72 } }] } }

/-- C4 (code evaluated at the failing input).  A batch containing a record
whose data_structure_type is not one of the known variants does NOT decode
with the record ignored: `EntryHTTP.UnmarshalJSON` sets `e.Values = nil` and
then calls `json.Unmarshal(payload, nil)`, whose InvalidUnmarshalError aborts
the whole ParseHTTP call, while the same batch without the unknown record
decodes fine. -/
theorem unknown_record_fails_batch :
    Parser.ParseHTTP batchJ = some (.error "json: Unmarshal(nil)") ∧
    Parser.ParseHTTP batchJok = some (.ok batchJokParsed) :=
  ⟨rfl, rfl⟩

/-- The whole UDP mutation (header write plus record loop) preserves any
projection untouched by both. -/
theorem applyUDP_proj {α : Type} (f : ReportData → α)
    (hentry : ∀ (d : ReportData) (c : Parser.EntryUDP), f (d.applyEntryUDP c) = f d)
    (hdev : ∀ (d : ReportData) (s : String), f { d with DeviceID := s } = f d)
    (d : ReportData) (new : Parser.ConditionsUDP) :
    f (d.applyUDP new) = f d := by
  unfold ReportData.applyUDP
  exact (foldlUDP_proj f hentry _ _).trans (hdev d new.DeviceID)

/-- C1.  Readiness gating: on a Report whose receiver-health fields have
never been populated (RXState and TransBatteryFlag still `""`), any sequence
of push-channel merges succeeds but only rewrites the data fields — the
notification queue, stored checksum, stored serialized bytes and the
last-modified Timestamp are all left exactly as they were, even though the
merged content may differ from the initial empty state.  (Each broadcast is
required to carry a timestamp, without which UpdateUDP panics; see C10.) -/
theorem push_gating_before_pull (cs : List Parser.ConditionsUDP) :
    ∀ r : Report, r.data.RXState = "" → r.data.TransBatteryFlag = "" →
    (∀ c ∈ cs, c.Timestamp ≠ none) →
    r.mergeSeqUDP cs = some { r with data := cs.foldl ReportData.applyUDP r.data } ∧
    (cs.foldl ReportData.applyUDP r.data).Timestamp = r.data.Timestamp := by
  induction cs with
  | nil =>
    intro r hrx hbat hts
    exact ⟨rfl, rfl⟩
  | cons c rest ih =>
    intro r hrx hbat hts
    cases hT : c.Timestamp with
    | none => exact absurd hT (hts c (List.mem_cons_self c rest))
    | some ts =>
      have hRX : (r.data.applyUDP c).RXState = r.data.RXState :=
        applyUDP_proj (fun x => x.RXState) (fun d c => rfl) (fun d s => rfl) r.data c
      have hTB : (r.data.applyUDP c).TransBatteryFlag = r.data.TransBatteryFlag :=
        applyUDP_proj (fun x => x.TransBatteryFlag) (fun d c => rfl) (fun d s => rfl) r.data c
      have hstep : r.UpdateUDP c = some { r with data := r.data.applyUDP c } := by
        have hnr := updateHook_not_ready { r with data := r.data.applyUDP c }
          .udp ts (Or.inl (hRX.trans hrx))
        unfold Report.UpdateUDP
        rw [hT]
        show some (Report.updateHook { r with data := r.data.applyUDP c } .udp ts) = _
        rw [hnr]
      have hih := ih { r with data := r.data.applyUDP c }
        (hRX.trans hrx) (hTB.trans hbat)
        (fun c' hc' => hts c' (List.mem_cons_of_mem _ hc'))
      constructor
      · show (match r.UpdateUDP c with
              | none => none
              | some r1 => r1.mergeSeqUDP rest) = _
        rw [hstep]
        exact hih.1
      · exact hih.2.trans
          (applyUDP_proj (fun x => x.Timestamp) (fun d c => rfl) (fun d s => rfl) r.data c)

/-- First push broadcast of the C1 witness (carries actual content). -/
def c1W : Parser.ConditionsUDP :=
  { DeviceID := "A", Timestamp := some 5
    Conditions := [{ WindSpeedLast := some 10 }] }

/-- Second push broadcast of the C1 witness. -/
def c2W : Parser.ConditionsUDP :=
  { DeviceID := "B", Timestamp := some 6 }

/-- Witness for C1 at a concrete input: two broadcasts merged into a fresh
Report change its content but produce no notification and leave the
bookkeeping untouched. -/
theorem push_gating_before_pull_witness :
    (NewReport false).mergeSeqUDP [c1W, c2W]
      = some { NewReport false with
               data := [c1W, c2W].foldl ReportData.applyUDP (NewReport false).data } ∧
    ([c1W, c2W].foldl ReportData.applyUDP (NewReport false).data).Timestamp
      = (NewReport false).data.Timestamp ∧
    [c1W, c2W].foldl ReportData.applyUDP (NewReport false).data
      ≠ (NewReport false).data := by
  have h := push_gating_before_pull [c1W, c2W] (NewReport false) rfl rfl (by decide)
  exact ⟨h.1, h.2, by decide⟩

/-- One content-changing UpdateUDP on a ready Report: the resulting
notification queue holds exactly one pending wake-up (never zero — a pending
one is left in place; never two — the non-blocking send is dropped when the
capacity-1 queue is full), and the receiver-health fields are untouched. -/
theorem UpdateUDP_changed_notify (r r' : Report) (c : Parser.ConditionsUDP)
    (hrx : r.data.RXState ≠ "") (hbat : r.data.TransBatteryFlag ≠ "")
    (hq : r.notify.length ≤ 1)
    (h : r.UpdateUDP c = some r')
    (hd : some (r.data.applyUDP c) ≠ r.lastChecksum) :
    r'.notify.length = 1 ∧ r'.data.RXState = r.data.RXState ∧
    r'.data.TransBatteryFlag = r.data.TransBatteryFlag := by
  cases hT : c.Timestamp with
  | none =>
    unfold Report.UpdateUDP at h
    rw [hT] at h
    exact absurd h (by simp)
  | some ts =>
    unfold Report.UpdateUDP at h
    rw [hT] at h
    have hr' : r' = Report.updateHook { r with data := r.data.applyUDP c } .udp ts :=
      (Option.some.inj h).symm
    have hRX : (r.data.applyUDP c).RXState = r.data.RXState :=
      applyUDP_proj (fun x => x.RXState) (fun d c => rfl) (fun d s => rfl) r.data c
    have hTB : (r.data.applyUDP c).TransBatteryFlag = r.data.TransBatteryFlag :=
      applyUDP_proj (fun x => x.TransBatteryFlag) (fun d c => rfl) (fun d s => rfl) r.data c
    have hgate : ¬(({ r with data := r.data.applyUDP c } : Report).data.RXState = ""
        ∨ ({ r with data := r.data.applyUDP c } : Report).data.TransBatteryFlag = "") :=
      fun hc => hc.elim (fun hcc => hrx (hRX.symm.trans hcc))
        (fun hcc => hbat (hTB.symm.trans hcc))
    have hhook := updateHook_changed { r with data := r.data.applyUDP c } .udp ts hgate hd
    rw [hr', hhook]
    refine ⟨?_, hRX, hTB⟩
    show (if r.notify.length < 1 then r.notify ++ [true] else r.notify).length = 1
    by_cases hl : r.notify.length < 1
    · rw [if_pos hl]
      simp only [List.length_append, List.length_cons, List.length_nil]
      omega
    · rw [if_neg hl]
      omega

/-- C6.  Coalescing: on a ready Report whose capacity-1 queue is in any legal
state (length at most 1), two content-changing merges in succession with no
intervening read leave exactly one pending notification — never zero and
never two — and neither merge blocks (both return). -/
theorem notify_coalescing (r r1 r2 : Report) (c1 c2 : Parser.ConditionsUDP)
    (hrx : r.data.RXState ≠ "") (hbat : r.data.TransBatteryFlag ≠ "")
    (hq : r.notify.length ≤ 1)
    (h1 : r.UpdateUDP c1 = some r1) (h2 : r1.UpdateUDP c2 = some r2)
    (hd1 : some (r.data.applyUDP c1) ≠ r.lastChecksum)
    (hd2 : some (r1.data.applyUDP c2) ≠ r1.lastChecksum) :
    r1.notify.length = 1 ∧ r2.notify.length = 1 := by
  have s1 := UpdateUDP_changed_notify r r1 c1 hrx hbat hq h1 hd1
  have s2 := UpdateUDP_changed_notify r1 r2 c2
    (by rw [s1.2.1]; exact hrx) (by rw [s1.2.2]; exact hbat)
    (le_of_eq s1.1) h2 hd2
  exact ⟨s1.1, s2.1⟩

/-- Visible fields of the ready Report used by the C6 and C8 witnesses. -/
def d6 : ReportData :=
  { DeviceID := "W", Temperature := some 72
    RXState := "Synced", TransBatteryFlag := "Nominal" }

/-- Ready Report (health fields populated, consistent stored checksum, empty
notification queue) used by the C6 and C8 witnesses. -/
def r6 : Report :=
  { data := d6, notify := [], verbose := false
    lastChecksum := some d6, lastBytes := some d6 }

/-- First content-changing broadcast of the C6 witness. -/
def cA : Parser.ConditionsUDP :=
  { DeviceID := "W", Timestamp := some 10
    Conditions := [{ WindSpeedLast := some 10 }] }

/-- Second content-changing broadcast of the C6 witness. -/
def cB : Parser.ConditionsUDP :=
  { DeviceID := "W", Timestamp := some 11
    Conditions := [{ WindSpeedLast := some 20 }] }

/-- Report after merging `cA` into `r6`. -/
def r6a : Report := (r6.UpdateUDP cA).getD (NewReport false)

/-- Report after merging `cB` into `r6a`. -/
def r6b : Report := (r6a.UpdateUDP cB).getD (NewReport false)

/-- Witness for C6 at a concrete input. -/
theorem notify_coalescing_witness :
    r6.UpdateUDP cA = some r6a ∧ r6a.UpdateUDP cB = some r6b ∧
    r6a.notify.length = 1 ∧ r6b.notify.length = 1 := by
  have h1 : r6.UpdateUDP cA = some r6a := rfl
  have h2 : r6a.UpdateUDP cB = some r6b := rfl
  have h := notify_coalescing r6 r6a r6b cA cB (by decide) (by decide)
    (by decide) h1 h2 (by decide) (by decide)
  exact ⟨h1, h2, h.1, h.2⟩

/-- C8.  Push-merge frame: a successful UpdateUDP of a single push record
overwrites only the device identifier, instantaneous wind speed/direction,
rain size/rates/counters/totals, storm start timestamp and the 10-minute gust
pair (plus the bookkeeping updated by the finalize step); the receiver-health
fields, outdoor temperature/humidity and derived indices, rolling wind
averages, solar/UV, last-storm fields, barometric fields and indoor-climate
fields all keep their previous values. -/
theorem udp_frame (r : Report) (new : Parser.ConditionsUDP) (e : Parser.EntryUDP)
    (r' : Report) (ts : EpochTime)
    (hc : new.Conditions = [e]) (hT : new.Timestamp = some ts)
    (h : r.UpdateUDP new = some r') :
    -- fields kept at their previous values
    (r'.data.RXState = r.data.RXState ∧
     r'.data.TransBatteryFlag = r.data.TransBatteryFlag ∧
     r'.data.Temperature = r.data.Temperature ∧
     r'.data.Humidity = r.data.Humidity ∧
     r'.data.Dewpoint = r.data.Dewpoint ∧
     r'.data.Wetbulb = r.data.Wetbulb ∧
     r'.data.HeatIndex = r.data.HeatIndex ∧
     r'.data.WindChill = r.data.WindChill ∧
     r'.data.THWIndex = r.data.THWIndex ∧
     r'.data.THSWIndex = r.data.THSWIndex ∧
     r'.data.WindSpeedAvgLast1Min = r.data.WindSpeedAvgLast1Min ∧
     r'.data.WindDirAvgLast1Min = r.data.WindDirAvgLast1Min ∧
     r'.data.WindSpeedAvgLast2Min = r.data.WindSpeedAvgLast2Min ∧
     r'.data.WindDirAvgLast2Min = r.data.WindDirAvgLast2Min ∧
     r'.data.WindSpeedHighLast2Min = r.data.WindSpeedHighLast2Min ∧
     r'.data.WindDirAtHighLast2Min = r.data.WindDirAtHighLast2Min ∧
     r'.data.WindSpeedAvgLast10Min = r.data.WindSpeedAvgLast10Min ∧
     r'.data.WindDirAvgLast10Min = r.data.WindDirAvgLast10Min ∧
     r'.data.RainRateHigh = r.data.RainRateHigh ∧
     r'.data.RainRateHighLast15Min = r.data.RainRateHighLast15Min ∧
     r'.data.SolarRad = r.data.SolarRad ∧
     r'.data.UVIndex = r.data.UVIndex ∧
     r'.data.RainStormLast = r.data.RainStormLast ∧
     r'.data.RainStormLastStartAt = r.data.RainStormLastStartAt ∧
     r'.data.RainStormLastEndAt = r.data.RainStormLastEndAt ∧
     r'.data.BarometerSeaLevel = r.data.BarometerSeaLevel ∧
     r'.data.BarometerTrend = r.data.BarometerTrend ∧
     r'.data.BarometerAbsolute = r.data.BarometerAbsolute ∧
     r'.data.TemperatureIndoor = r.data.TemperatureIndoor ∧
     r'.data.HumidityIndoor = r.data.HumidityIndoor ∧
     r'.data.DewPointIndoor = r.data.DewPointIndoor ∧
     r'.data.HeatIndexIndoor = r.data.HeatIndexIndoor) ∧
    -- fields overwritten from the push record
    (r'.data.DeviceID = new.DeviceID ∧
     r'.data.WindSpeedLast = e.WindSpeedLast ∧
     r'.data.WindDirLast = e.WindDirLast ∧
     r'.data.RainSize = e.RainSize ∧
     r'.data.RainRateLast = e.RainRateLast ∧
     r'.data.RainLast15Min = e.RainLast15Min ∧
     r'.data.RainLast60Min = e.RainLast60Min ∧
     r'.data.RainLast24Hour = e.RainLast24Hour ∧
     r'.data.RainStorm = e.RainStorm ∧
     (∀ t, e.RainStormStartAt = some t → r'.data.RainStormStartAt = some t) ∧
     (e.RainStormStartAt = none →
        r'.data.RainStormStartAt = r.data.RainStormStartAt) ∧
     r'.data.RainfallDaily = e.RainfallDaily ∧
     r'.data.RainfallMonthly = e.RainfallMonthly ∧
     r'.data.RainfallYear = e.RainfallYear ∧
     r'.data.WindSpeedHighLast10Min = e.WindSpeedHighLast10Min ∧
     r'.data.WindDirAtHighLast10Min = e.WindDirAtHighLast10Min) := by
  have hr' : r' = Report.updateHook { r with data := r.data.applyUDP new } .udp ts := by
    unfold Report.UpdateUDP at h
    rw [hT] at h
    exact (Option.some.inj h).symm
  have K : ∀ {α : Type} (f : ReportData → α),
      (∀ (d : ReportData) (t : EpochTime), f { d with Timestamp := t } = f d) →
      (∀ (d : ReportData) (c : Parser.EntryUDP), f (d.applyEntryUDP c) = f d) →
      (∀ (d : ReportData) (s : String), f { d with DeviceID := s } = f d) →
      f r'.data = f r.data :=
    fun f h1 h2 h3 => UpdateUDP_keep_proj f h1 h2 h3 r new r' h
  have W : ∀ {α : Type} (f : ReportData → α),
      (∀ (d : ReportData) (t : EpochTime), f { d with Timestamp := t } = f d) →
      f r'.data
        = f (({ r.data with DeviceID := new.DeviceID }).applyEntryUDP e) := by
    intro α f hf
    rw [hr']
    refine (updateHook_data_proj f hf _ _ _).trans ?_
    show f (r.data.applyUDP new) = _
    unfold ReportData.applyUDP
    rw [hc]
    rfl
  refine ⟨⟨?_, ?_, ?_, ?_, ?_, ?_, ?_, ?_, ?_, ?_, ?_, ?_, ?_, ?_, ?_, ?_,
           ?_, ?_, ?_, ?_, ?_, ?_, ?_, ?_, ?_, ?_, ?_, ?_, ?_, ?_, ?_, ?_⟩,
          ?_, ?_, ?_, ?_, ?_, ?_, ?_, ?_, ?_, ?_, ?_, ?_, ?_, ?_, ?_, ?_⟩
  · exact K (fun x => x.RXState) (fun d t => rfl) (fun d c => rfl) (fun d s => rfl)
  · exact K (fun x => x.TransBatteryFlag) (fun d t => rfl) (fun d c => rfl) (fun d s => rfl)
  · exact K (fun x => x.Temperature) (fun d t => rfl) (fun d c => rfl) (fun d s => rfl)
  · exact K (fun x => x.Humidity) (fun d t => rfl) (fun d c => rfl) (fun d s => rfl)
  · exact K (fun x => x.Dewpoint) (fun d t => rfl) (fun d c => rfl) (fun d s => rfl)
  · exact K (fun x => x.Wetbulb) (fun d t => rfl) (fun d c => rfl) (fun d s => rfl)
  · exact K (fun x => x.HeatIndex) (fun d t => rfl) (fun d c => rfl) (fun d s => rfl)
  · exact K (fun x => x.WindChill) (fun d t => rfl) (fun d c => rfl) (fun d s => rfl)
  · exact K (fun x => x.THWIndex) (fun d t => rfl) (fun d c => rfl) (fun d s => rfl)
  · exact K (fun x => x.THSWIndex) (fun d t => rfl) (fun d c => rfl) (fun d s => rfl)
  · exact K (fun x => x.WindSpeedAvgLast1Min) (fun d t => rfl) (fun d c => rfl) (fun d s => rfl)
  · exact K (fun x => x.WindDirAvgLast1Min) (fun d t => rfl) (fun d c => rfl) (fun d s => rfl)
  · exact K (fun x => x.WindSpeedAvgLast2Min) (fun d t => rfl) (fun d c => rfl) (fun d s => rfl)
  · exact K (fun x => x.WindDirAvgLast2Min) (fun d t => rfl) (fun d c => rfl) (fun d s => rfl)
  · exact K (fun x => x.WindSpeedHighLast2Min) (fun d t => rfl) (fun d c => rfl) (fun d s => rfl)
  · exact K (fun x => x.WindDirAtHighLast2Min) (fun d t => rfl) (fun d c => rfl) (fun d s => rfl)
  · exact K (fun x => x.WindSpeedAvgLast10Min) (fun d t => rfl) (fun d c => rfl) (fun d s => rfl)
  · exact K (fun x => x.WindDirAvgLast10Min) (fun d t => rfl) (fun d c => rfl) (fun d s => rfl)
  · exact K (fun x => x.RainRateHigh) (fun d t => rfl) (fun d c => rfl) (fun d s => rfl)
  · exact K (fun x => x.RainRateHighLast15Min) (fun d t => rfl) (fun d c => rfl) (fun d s => rfl)
  · exact K (fun x => x.SolarRad) (fun d t => rfl) (fun d c => rfl) (fun d s => rfl)
  · exact K (fun x => x.UVIndex) (fun d t => rfl) (fun d c => rfl) (fun d s => rfl)
  · exact K (fun x => x.RainStormLast) (fun d t => rfl) (fun d c => rfl) (fun d s => rfl)
  · exact K (fun x => x.RainStormLastStartAt) (fun d t => rfl) (fun d c => rfl) (fun d s => rfl)
  · exact K (fun x => x.RainStormLastEndAt) (fun d t => rfl) (fun d c => rfl) (fun d s => rfl)
  · exact K (fun x => x.BarometerSeaLevel) (fun d t => rfl) (fun d c => rfl) (fun d s => rfl)
  · exact K (fun x => x.BarometerTrend) (fun d t => rfl) (fun d c => rfl) (fun d s => rfl)
  · exact K (fun x => x.BarometerAbsolute) (fun d t => rfl) (fun d c => rfl) (fun d s => rfl)
  · exact K (fun x => x.TemperatureIndoor) (fun d t => rfl) (fun d c => rfl) (fun d s => rfl)
  · exact K (fun x => x.HumidityIndoor) (fun d t => rfl) (fun d c => rfl) (fun d s => rfl)
  · exact K (fun x => x.DewPointIndoor) (fun d t => rfl) (fun d c => rfl) (fun d s => rfl)
  · exact K (fun x => x.HeatIndexIndoor) (fun d t => rfl) (fun d c => rfl) (fun d s => rfl)
  · exact W (fun x => x.DeviceID) (fun d t => rfl)
  · exact W (fun x => x.WindSpeedLast) (fun d t => rfl)
  · exact W (fun x => x.WindDirLast) (fun d t => rfl)
  · exact W (fun x => x.RainSize) (fun d t => rfl)
  · exact W (fun x => x.RainRateLast) (fun d t => rfl)
  · exact W (fun x => x.RainLast15Min) (fun d t => rfl)
  · exact W (fun x => x.RainLast60Min) (fun d t => rfl)
  · exact W (fun x => x.RainLast24Hour) (fun d t => rfl)
  · exact W (fun x => x.RainStorm) (fun d t => rfl)
  · intro t het
    refine (W (fun x => x.RainStormStartAt) (fun d t' => rfl)).trans ?_
    show (match e.RainStormStartAt with
          | some t' => some t'
          | none => r.data.RainStormStartAt) = some t
    rw [het]
  · intro het
    refine (W (fun x => x.RainStormStartAt) (fun d t' => rfl)).trans ?_
    show (match e.RainStormStartAt with
          | some t' => some t'
          | none => r.data.RainStormStartAt) = r.data.RainStormStartAt
    rw [het]
  · exact W (fun x => x.RainfallDaily) (fun d t => rfl)
  · exact W (fun x => x.RainfallMonthly) (fun d t => rfl)
  · exact W (fun x => x.RainfallYear) (fun d t => rfl)
  · exact W (fun x => x.WindSpeedHighLast10Min) (fun d t => rfl)
  · exact W (fun x => x.WindDirAtHighLast10Min) (fun d t => rfl)

/-- Witness for C8 at a concrete input: merging the single wind-only record
of `cA` into the ready Report `r6` updates the wind speed and keeps the
temperature and receiver-health fields. -/
theorem udp_frame_witness :
    r6.UpdateUDP cA = some r6a ∧
    r6a.data.Temperature = r6.data.Temperature ∧
    r6a.data.RXState = r6.data.RXState ∧
    r6a.data.WindSpeedLast = some 10 ∧
    r6a.notify.length = 1 := by
  have h : r6.UpdateUDP cA = some r6a := rfl
  have hf := udp_frame r6 cA { WindSpeedLast := some 10 } r6a 10 rfl rfl h
  exact ⟨h, hf.1.2.2.1, hf.1.1, by decide, by decide⟩

/-- UpdateJSON on a parseable payload copies every visible field but
`Timestamp` onto the target, then runs the finalize hook with `time.Now()`. -/
theorem UpdateJSON_fields (r : Report) (n : ReportData) (now : EpochTime) :
    r.UpdateJSON (some n) now
      = .ok (Report.updateHook
          { r with data := { n with Timestamp := r.data.Timestamp } } .json now) := rfl

/-- Visible fields of the snapshot used by the C3 counterexample and witness:
a ready Report last modified at time 100. -/
def d3 : ReportData :=
  { DeviceID := "X", Timestamp := 100, Temperature := some 72
    RXState := "Synced", TransBatteryFlag := "Nominal" }

/-- Report holding `d3` with a consistent stored checksum and serialized
form, as the finalize step leaves them after the change that set
`Timestamp := 100`. -/
def r3 : Report :=
  { data := d3, notify := [], verbose := false
    lastChecksum := some d3, lastBytes := some d3 }

/-- Result of decoding `r3`'s encoded snapshot into a fresh Report at time
200. -/
def r3dec : Report :=
  match (NewReport false).Decode r3.Encode 200 with
  | .ok r => r
  | .error _ => NewReport false

/-- C3 (counterexample).  Decode(Encode(r3)) into a fresh Report reproduces
the data fields (device id, temperature, …) but NOT the last-modified
Timestamp: the original was last modified at 100, the decoded Report carries
the decode-time 200, because UpdateJSON never copies the Timestamp field and
the finalize hook stamps `time.Now()`. -/
theorem roundtrip_timestamp_cex :
    (NewReport false).Decode r3.Encode 200 = .ok r3dec ∧
    r3dec.data.Temperature = r3.data.Temperature ∧
    r3dec.data.DeviceID = r3.data.DeviceID ∧
    r3dec.data.Timestamp = 200 ∧
    r3.data.Timestamp = 100 ∧
    r3dec.data.Timestamp ≠ r3.data.Timestamp := by
  refine ⟨rfl, rfl, rfl, rfl, rfl, by decide⟩

/-- C3 (amended).  Round-trip: for every Report with a stored serialized form
`d` (which, when stored by the finalize step, has the receiver-health fields
populated), decoding the encoded snapshot into a fresh Report reproduces
every visible field of `d` except the last-modified Timestamp, which is set
to the decode time; the bookkeeping fields of the result are the fresh
target's own (its own queue, holding the one change notification this
replacement fires; stored checksum/bytes recomputed locally). -/
theorem roundtrip_amended (r : Report) (d : ReportData) (now : EpochTime)
    (v : Bool) (h : r.lastBytes = some d)
    (hrx : d.RXState ≠ "") (hbat : d.TransBatteryFlag ≠ "") :
    (NewReport v).Decode r.Encode now
      = .ok { data := { d with Timestamp := now }
              notify := [true]
              verbose := v
              lastChecksum := some { d with Timestamp := now }
              lastBytes := some { d with Timestamp := now } } := by
  unfold Report.Decode
  rw [show r.Encode = some d from h]
  rw [UpdateJSON_fields]
  rw [updateHook_changed _ _ _
    (fun hc => hc.elim hrx hbat) (fun hc => Option.noConfusion hc)]
  rfl

/-- Witness for C3's amended claim at a concrete input. -/
theorem roundtrip_amended_witness :
    (NewReport false).Decode r3.Encode 200
      = .ok { data := { d3 with Timestamp := 200 }
              notify := [true]
              verbose := false
              lastChecksum := some { d3 with Timestamp := 200 }
              lastBytes := some { d3 with Timestamp := 200 } } :=
  roundtrip_amended r3 d3 200 false rfl (by decide) (by decide)

/-- Applying a patch to a patched state whose device id was then overwritten
gives the same result as patching the device-id-overwritten base state: every
non-DeviceID field update is idempotent, and DeviceID is re-patched either
way. -/
theorem applyPatch_dev_applyPatch (x : ReportData) (w : String) (q : Patch) :
    ReportData.applyPatch { x.applyPatch q with DeviceID := w } q
      = ReportData.applyPatch { x with DeviceID := w } q := by
  simp only [ReportData.applyPatch, getD_getD]

/-- Re-running the HTTP mutation phase (device-id write followed by the
batch's combined patch) on its own timestamped output changes nothing:
patches are idempotent and blind to `Timestamp`. -/
theorem applyPatch_idem_after (x : ReportData) (w : String) (q : Patch)
    (ts : EpochTime) :
    ReportData.applyPatch
      { ({ ReportData.applyPatch { x with DeviceID := w } q
           with Timestamp := ts } : ReportData)
        with DeviceID := w } q
      = { ReportData.applyPatch { x with DeviceID := w } q
          with Timestamp := ts } := by
  simp only [ReportData.applyPatch, getD_getD]

/-- State of the Report after UpdateHTTP's mutation phase (header write plus
condition loop, patch form), before the finalize hook. -/
def httpMutated (r : Report) (w : Parser.WeatherHTTP) (q : Patch) : Report :=
  { r with data := ReportData.applyPatch { r.data with DeviceID := w.DeviceID } q }

/-- Characterization of a panic-free, error-free UpdateHTTP call: mutate by
the batch's combined patch, then finalize. -/
theorem UpdateHTTP_eq (r : Report) (new : Parser.ConditionsHTTP)
    (w : Parser.WeatherHTTP) (q : Patch) (ts : EpochTime)
    (hE : new.Error = none) (hD : new.Data = some w)
    (hP : entriesPatchHTTP w.Conditions = some q) (hT : w.Timestamp = some ts) :
    r.UpdateHTTP new
      = some (Report.updateHook (httpMutated r w q) .http ts, none) := by
  simp only [Report.UpdateHTTP, hE, hD, applyEntriesHTTP_patch, hP, Option.map, hT]
  rfl

/-- C5.  Idempotence: an error-free pull record set merged into a fresh store
that populates the receiver-health fields fires a change notification on the
first UpdateHTTP call (the queue then holds exactly the one wake-up), and a
second UpdateHTTP of the same record set is a complete no-op: it recomputes a
content hash equal to the stored one and returns success with the state —
timestamp, bookkeeping and queue included — bit-for-bit unchanged. -/
theorem http_merge_idempotent (c : Parser.ConditionsHTTP) (r1 : Report)
    (h1 : Report.UpdateHTTP (NewReport false) c = some (r1, none))
    (hrx : r1.data.RXState ≠ "") (hbat : r1.data.TransBatteryFlag ≠ "") :
    r1.notify = [true] ∧ r1.UpdateHTTP c = some (r1, none) := by
  cases hE : c.Error with
  | some e =>
    simp [Report.UpdateHTTP, hE] at h1
  | none =>
  cases hD : c.Data with
  | none =>
    simp [Report.UpdateHTTP, hE, hD] at h1
  | some w =>
  cases hP : entriesPatchHTTP w.Conditions with
  | none =>
    simp only [Report.UpdateHTTP, hE, hD, applyEntriesHTTP_patch, hP,
      Option.map] at h1
    exact Option.noConfusion h1
  | some q =>
  cases hT : w.Timestamp with
  | none =>
    simp only [Report.UpdateHTTP, hE, hD, applyEntriesHTTP_patch, hP,
      Option.map, hT] at h1
    exact Option.noConfusion h1
  | some ts =>
  rw [UpdateHTTP_eq (NewReport false) c w q ts hE hD hP hT] at h1
  have hx : Report.updateHook (httpMutated (NewReport false) w q) .http ts = r1 :=
    congrArg Prod.fst (Option.some.inj h1)
  have hRXh : r1.data.RXState = (httpMutated (NewReport false) w q).data.RXState := by
    rw [← hx]
    exact updateHook_data_proj (fun x => x.RXState) (fun d t => rfl) _ _ _
  have hTBh : r1.data.TransBatteryFlag
      = (httpMutated (NewReport false) w q).data.TransBatteryFlag := by
    rw [← hx]
    exact updateHook_data_proj (fun x => x.TransBatteryFlag) (fun d t => rfl) _ _ _
  have hgate : ¬((httpMutated (NewReport false) w q).data.RXState = ""
      ∨ (httpMutated (NewReport false) w q).data.TransBatteryFlag = "") :=
    fun hcc => hcc.elim (fun hc2 => hrx (hRXh.trans hc2))
      (fun hc2 => hbat (hTBh.trans hc2))
  have hch : some (httpMutated (NewReport false) w q).data
      ≠ (httpMutated (NewReport false) w q).lastChecksum :=
    fun hcon => Option.noConfusion hcon
  have hhook := updateHook_changed (httpMutated (NewReport false) w q) .http ts
    hgate hch
  have hr1 : r1 = { httpMutated (NewReport false) w q with
      data := { (httpMutated (NewReport false) w q).data with Timestamp := ts }
      lastChecksum :=
        some { (httpMutated (NewReport false) w q).data with Timestamp := ts }
      lastBytes :=
        some { (httpMutated (NewReport false) w q).data with Timestamp := ts }
      notify := [true] } := by
    rw [← hx, hhook]
    rfl
  constructor
  · rw [hr1]
  · have hd1 : r1.data
        = { (httpMutated (NewReport false) w q).data with Timestamp := ts } :=
      congrArg (fun x => x.data) hr1
    have hdata : (httpMutated r1 w q).data = r1.data := by
      show ReportData.applyPatch { r1.data with DeviceID := w.DeviceID } q = r1.data
      rw [hd1]
      exact applyPatch_idem_after (NewReport false).data w.DeviceID q ts
    have hM : httpMutated r1 w q = r1 :=
      congrArg (fun dd => { r1 with data := dd }) hdata
    rw [UpdateHTTP_eq r1 c w q ts hE hD hP hT, hM]
    rw [updateHook_unchanged r1 .http ts (by rw [hr1])]

/-- Error-free pull record set of the C5 witness: one ISS record carrying
synced signal state, nominal battery state and a temperature. -/
def cW5 : Parser.ConditionsHTTP :=
  { Data := some
      { DeviceID := "X"
        Timestamp := some 100
        Conditions := [{ DataStructureType := some Parser.RecordISS
                         Values := .iss { Temperature := some 72
                                          RXState := some Parser.SignalSynced
                                          TransBatteryFlag := some Parser.BatteryNominal } }] } }

/-- Report produced by merging `cW5` into a fresh store. -/
def r1W5 : Report :=
  match Report.UpdateHTTP (NewReport false) cW5 with
  | some (r, none) => r
  | _ => NewReport false

/-- Witness for C5 at a concrete input. -/
theorem http_merge_idempotent_witness :
    Report.UpdateHTTP (NewReport false) cW5 = some (r1W5, none) ∧
    r1W5.notify = [true] ∧
    Report.UpdateHTTP r1W5 cW5 = some (r1W5, none) := by
  have h1 : Report.UpdateHTTP (NewReport false) cW5 = some (r1W5, none) := rfl
  have h := http_merge_idempotent cW5 r1W5 h1 (by decide) (by decide)
  exact ⟨h1, h.1, h.2⟩

end Davisweather
